import Mathlib

/-!
Shallow embedding of the realtime conversation backend of the AIVlingual
repository (Python sources under src/backend/app), covering the token-bucket
rate limiter (core/rate_limiter.py), the session registry
(services/session_manager.py), the bilingual response orchestrator
(core/ai_responder.py) and the session-command websocket handler
(api/websocket/handlers/control_handler.py).

Wall-clock instants and durations are modelled as rationals (seconds).
Python dictionaries are modelled as functions into Option.
-/

namespace AIVlingual

/-! ## Token bucket (src/backend/app/core/rate_limiter.py, class TokenBucket) -/

/-- State of one `TokenBucket` (rate_limiter.py lines 86-129).
`tokens` is the float `self.tokens`; `last_update` is the timestamp
`self.last_update` in seconds. -/
structure TokenBucket where
  capacity : ℚ
  refill_rate : ℚ
  burst_size : ℚ
  tokens : ℚ
  last_update : ℚ
deriving Repr, DecidableEq

/-- Model of `TokenBucket.__init__`: the bucket starts full (`self.tokens = capacity`)
at creation time `now`. -/
def TokenBucket.init (capacity refill_rate burst_size now : ℚ) : TokenBucket :=
  { capacity := capacity, refill_rate := refill_rate, burst_size := burst_size,
    tokens := capacity, last_update := now }

/-- Model of `TokenBucket._refill` at wall-clock time `now`: add `elapsed * refill_rate`
tokens, clamped above by `capacity + burst_size`, and stamp `last_update`. -/
def TokenBucket.refill (b : TokenBucket) (now : ℚ) : TokenBucket :=
  let elapsed := now - b.last_update
  let tokens_to_add := elapsed * b.refill_rate
  { b with tokens := min (b.tokens + tokens_to_add) (b.capacity + b.burst_size),
           last_update := now }

/-- Model of `TokenBucket.consume`: refill lazily, then take `n` tokens if available.
Returns the Python return value and the mutated bucket. -/
def TokenBucket.consume (b : TokenBucket) (n : ℚ) (now : ℚ) : Bool × TokenBucket :=
  let b1 := b.refill now
  if n ≤ b1.tokens then (true, { b1 with tokens := b1.tokens - n })
  else (false, b1)

/-- Model of `TokenBucket.add_tokens` (refund path): add tokens back, clamped above by
`capacity + burst_size`; `last_update` is not touched. -/
def TokenBucket.add_tokens (b : TokenBucket) (n : ℚ) : TokenBucket :=
  { b with tokens := min (b.tokens + n) (b.capacity + b.burst_size) }

/-- Python `int(...)` conversion on a float: truncation toward zero. -/
def pyTrunc (q : ℚ) : ℤ :=
  if q < 0 then ⌈q⌉ else ⌊q⌋

/-- Model of `TokenBucket.get_retry_after`: note that it reads the stored `self.tokens`
without refilling, and returns `int(seconds_needed) + 1` when a token is
missing. -/
def TokenBucket.get_retry_after (b : TokenBucket) : ℤ :=
  if 1 ≤ b.tokens then 0
  else
    let tokens_needed := 1 - b.tokens
    let seconds_needed := tokens_needed / b.refill_rate
    pyTrunc seconds_needed + 1

/-! ## Rate limiter (src/backend/app/core/rate_limiter.py, class RateLimiter) -/

/-- State of `RateLimiter`: per-client buckets (a dict keyed by client id)
plus the global bucket. -/
structure RateLimiter where
  requests_per_minute : ℚ
  requests_per_hour : ℚ
  burst_size : ℚ
  client_buckets : String → Option TokenBucket
  global_bucket : TokenBucket

/-- Model of `RateLimiter.__init__` (fresh limiter, empty client dict, full global
bucket created at time `now`). -/
def RateLimiter.init (requests_per_minute requests_per_hour burst_size now : ℚ) :
    RateLimiter :=
  { requests_per_minute := requests_per_minute,
    requests_per_hour := requests_per_hour,
    burst_size := burst_size,
    client_buckets := fun _ => none,
    global_bucket := TokenBucket.init requests_per_hour (requests_per_hour / 3600)
      burst_size now }

/-- The bucket `check_rate_limit` creates for a previously unseen client:
capacity `requests_per_minute`, refill `requests_per_minute / 60` per second. -/
def RateLimiter.freshClientBucket (rl : RateLimiter) (now : ℚ) : TokenBucket :=
  TokenBucket.init rl.requests_per_minute (rl.requests_per_minute / 60)
    rl.burst_size now

/-- The per-client bucket `check_rate_limit` operates on: the stored one, or a
fresh full bucket inserted on first contact. -/
def RateLimiter.bucketFor (rl : RateLimiter) (client_id : String) (now : ℚ) :
    TokenBucket :=
  match rl.client_buckets client_id with
  | some b => b
  | none => rl.freshClientBucket now

/-- Store a client bucket under a client id (dict assignment). -/
def RateLimiter.setBucket (rl : RateLimiter) (client_id : String)
    (b : TokenBucket) : RateLimiter :=
  { rl with client_buckets := fun k => if k = client_id then some b
      else rl.client_buckets k }

/-- Model of `RateLimiter.check_rate_limit` (rate_limiter.py lines 34-61): consume one
token from the client bucket, then one from the global bucket, in that order
(both consumes run before either result is inspected).  If the client consume
failed, return False with both consumes committed.  If the client consume
succeeded but the global one failed, refund one token to the client bucket and
return False.  Otherwise return True. -/
def RateLimiter.check_rate_limit (rl : RateLimiter) (client_id : String)
    (now : ℚ) : Bool × RateLimiter :=
  let client_bucket := rl.bucketFor client_id now
  let c := client_bucket.consume 1 now
  let g := rl.global_bucket.consume 1 now
  if !c.1 then
    (false, { (rl.setBucket client_id c.2) with global_bucket := g.2 })
  else if !g.1 then
    (false, { (rl.setBucket client_id (c.2.add_tokens 1)) with global_bucket := g.2 })
  else
    (true, { (rl.setBucket client_id c.2) with global_bucket := g.2 })

/-- Model of `RateLimiter.get_retry_after`: delegate to the stored client bucket, 0 for
an unknown client. -/
def RateLimiter.get_retry_after (rl : RateLimiter) (client_id : String) : ℤ :=
  match rl.client_buckets client_id with
  | some b => b.get_retry_after
  | none => 0

/-- The bucket invariant claimed in the spec (section 3, TokenBucket). -/
def TBInv (b : TokenBucket) : Prop :=
  0 ≤ b.tokens ∧ b.tokens ≤ b.capacity + b.burst_size

/-! ## Session registry (src/backend/app/services/session_manager.py) -/

/-- One entry of `SessionManager.sessions`.  Timestamps are stored as instants
in seconds (the Python code stores isoformat strings and parses them back).
The `context` key map is modelled as a function into Option; `languages_used`
is not modelled because no claim reads it. -/
structure SessionData where
  created_at : ℚ
  updated_at : ℚ
  conversation_history : String
  language_preference : String
  context : String → Option String
  turn_count : ℕ

/-- Model of `SessionManager` state: the sessions dict plus the TTL constant
(`self.session_ttl = 3600`). -/
structure SessionManager where
  sessions : String → Option SessionData
  session_ttl : ℚ

/-- Model of `SessionManager.__init__`. -/
def SessionManager.init : SessionManager :=
  { sessions := fun _ => none, session_ttl := 3600 }

/-- The fresh session record built by `SessionManager.create_session` at time
`now` (the caller supplies the generated uuid as the key). -/
def freshSession (now : ℚ) : SessionData :=
  { created_at := now, updated_at := now, conversation_history := "",
    language_preference := "auto", context := fun _ => none, turn_count := 0 }

/-- Store a session under an id (dict assignment). -/
def SessionManager.setSession (m : SessionManager) (session_id : String)
    (s : SessionData) : SessionManager :=
  { m with sessions := fun k => if k = session_id then some s else m.sessions k }

/-- Delete a session id (Python `del self.sessions[session_id]`). -/
def SessionManager.delSession (m : SessionManager) (session_id : String) :
    SessionManager :=
  { m with sessions := fun k => if k = session_id then none else m.sessions k }

/-- Model of `SessionManager.get_session` (session_manager.py lines 44-56): look the id
up; if present and `now - created_at > session_ttl`, delete it and return None,
otherwise return it unchanged.  Note the expiry test reads `created_at`, not
`updated_at`. -/
def SessionManager.get_session (m : SessionManager) (session_id : String)
    (now : ℚ) : Option SessionData × SessionManager :=
  match m.sessions session_id with
  | none => (none, m)
  | some s =>
    if m.session_ttl < now - s.created_at then (none, m.delSession session_id)
    else (some s, m)

/-- Python `str.split` on the one-character separator newline, written as a
structural recursion over the character list (`"".split` gives `[""]`, and a
trailing newline yields a trailing empty line, as in Python). -/
def splitNewlinesAux : List Char → List Char → List String
  | [], cur => [String.mk cur.reverse]
  | c :: cs, cur =>
    if c = '\n' then String.mk cur.reverse :: splitNewlinesAux cs []
    else splitNewlinesAux cs (c :: cur)

/-- Model of `text.split(chr(10))`. -/
def splitNewlines (s : String) : List String :=
  splitNewlinesAux s.toList []

/-- Python `"\n".join(lines)`, written as a structural recursion. -/
def joinNewlines : List String → String
  | [] => ""
  | [l] => l
  | l :: ls => l ++ "\n" ++ joinNewlines ls

/-- Model of `SessionManager.update_context` (lines 58-87): fetch via `get_session`,
append the turn to `conversation_history`, bump `turn_count`, stamp
`updated_at := now`, and truncate the history to its last 20 lines. -/
def SessionManager.update_context (m : SessionManager) (session_id : String)
    (user_input ai_response : String) (now : ℚ) : Bool × SessionManager :=
  let fetched := m.get_session session_id now
  match fetched.1 with
  | none => (false, fetched.2)
  | some s =>
    let hist :=
      if s.conversation_history ≠ "" then
        s.conversation_history ++ "\nUser: " ++ user_input ++ "\nAI: " ++ ai_response
      else
        "User: " ++ user_input ++ "\nAI: " ++ ai_response
    let lines := splitNewlines hist
    let hist2 :=
      if lines.length > 20 then
        joinNewlines (lines.drop (lines.length - 20))
      else hist
    let s1 := { s with conversation_history := hist2,
                       turn_count := s.turn_count + 1,
                       updated_at := now }
    (true, fetched.2.setSession session_id s1)

/-! ## Conversation memory (src/backend/app/core/ai_responder.py, class
ConversationMemory) -/

/-- One entry of `ConversationMemory.messages`. -/
structure Message where
  role : String
  content : String
  timestamp : ℚ
deriving Repr, DecidableEq

/-- Python slice `xs[-k:]`: the last `k` elements, except that `k = 0` keeps
the whole list (`xs[-0:]` is `xs[0:]`). -/
def pyLastSlice (k : ℕ) (xs : List Message) : List Message :=
  if k = 0 then xs else xs.drop (xs.length - k)

/-- Model of `ConversationMemory` state. -/
structure ConversationMemory where
  window_size : ℕ
  messages : List Message
deriving Repr, DecidableEq

/-- Model of `ConversationMemory.__init__`. -/
def ConversationMemory.init (window_size : ℕ) : ConversationMemory :=
  { window_size := window_size, messages := [] }

/-- Model of `ConversationMemory.add_message`: append, then keep only the last
`window_size * 2` entries when the bound is exceeded. -/
def ConversationMemory.add_message (m : ConversationMemory)
    (role content : String) (now : ℚ) : ConversationMemory :=
  let msgs := m.messages ++ [{ role := role, content := content, timestamp := now }]
  { m with messages :=
      if msgs.length > m.window_size * 2 then pyLastSlice (m.window_size * 2) msgs
      else msgs }

/-- Model of `ConversationMemory.clear`. -/
def ConversationMemory.clear (m : ConversationMemory) : ConversationMemory :=
  { m with messages := [] }

/-- Model of `ConversationMemory.to_string`: newline-joined `role: content` lines. -/
def ConversationMemory.to_string (m : ConversationMemory) : String :=
  joinNewlines (m.messages.map fun msg => msg.role ++ ": " ++ msg.content)

/-- Drop leading ASCII whitespace from a character list. -/
def dropLeadingWS : List Char → List Char
  | [] => []
  | c :: cs =>
    if c = ' ' ∨ c = '\t' ∨ c = '\n' ∨ c = '\r' then dropLeadingWS cs
    else c :: cs

/-- Python `str.strip()`: remove whitespace from both ends. -/
def pyStrip (s : String) : String :=
  String.mk ((dropLeadingWS ((dropLeadingWS s.toList).reverse)).reverse)

/-! ## Language heuristics (ai_responder.py) -/

/-- The Japanese character test used throughout ai_responder.py: CJK block
U+3000-U+9FFF, hiragana U+3040-U+309F, katakana U+30A0-U+30FF. -/
def isJapaneseChar (c : Char) : Bool :=
  (0x3000 ≤ c.toNat && c.toNat ≤ 0x9fff) ||
  (0x3040 ≤ c.toNat && c.toNat ≤ 0x309f) ||
  (0x30a0 ≤ c.toNat && c.toNat ≤ 0x30ff)

/-- Count of Japanese characters in the text. -/
def japaneseCharCount (s : String) : ℕ :=
  (s.toList.filter isJapaneseChar).length

/-- Python length of the text with all space characters removed. -/
def totalNonSpaceChars (s : String) : ℕ :=
  (s.toList.filter (fun c => c ≠ ' ')).length

/-- The `japanese_ratio` computed in ai_responder.py, with the Python
`if total_chars > 0 else 0` guard. -/
def japaneseRatio (s : String) : ℚ :=
  if totalNonSpaceChars s = 0 then 0
  else (japaneseCharCount s : ℚ) / (totalNonSpaceChars s : ℚ)

/-- Model of `BilingualAIResponder._determine_response_language`. -/
def determineResponseLanguage (response_text user_language : String) : String :=
  if totalNonSpaceChars response_text = 0 then user_language
  else if (1 : ℚ) / 2 < japaneseRatio response_text then "ja-JP"
  else "en-US"

/-- Model of `BilingualAIResponder._detect_user_language` (threshold 0.3). -/
def detectUserLanguage (text : String) : String :=
  if totalNonSpaceChars text = 0 then "en-US"
  else if (3 : ℚ) / 10 < japaneseRatio text then "ja-JP"
  else "en-US"

/-- Model of `BilingualAIResponder._get_fallback_response`. -/
def getFallbackResponse (language : String) : String :=
  if language = "ja" ∨ language = "ja-JP" then
    "すみません、今は応答できません。もう一度お試しください。"
  else
    "Sorry, I could not process that. Please try again."

/-! ## Response orchestrator (ai_responder.py, class BilingualAIResponder)

The external generation collaborator (the Gemini call) is a parameter: it is
characterised by how long it takes to complete and by its outcome.  The
synthesis collaborator is modelled by recording the text/language pair that
`synthesize_text` is invoked with (the command itself is opaque).  The
`session_context` dict is modelled by the keys the orchestrator reads or that
can overwrite the keys it writes (`_build_context` does
`context.update(session_context)`). -/

/-- Failure modes of the external generation collaborator, matching the
except-clauses of `generate_response`. -/
inductive GenError where
  | timeout
  | blocked
  | other (msg : String)
deriving Repr, DecidableEq

/-- The non-streaming generation collaborator: completes after `duration`
seconds with `outcome`. -/
structure GenCollab where
  duration : ℚ
  outcome : Except GenError String

/-- Session context passed into the orchestrator.  `conversation_history`
models an entry that `dict.update` would copy over the key `_build_context`
itself writes; `language` models `context.get("language", "auto")` read by
the websocket speech handler. -/
structure SessionContext where
  language : Option String := none
  conversation_history : Option String := none

/-- Model of `BilingualAIResponder._build_context`, restricted to the keys any claim
reads: the memory rendering, possibly overwritten by a `conversation_history`
entry of the session context (Python `context.update(session_context)`). -/
def buildContextHistory (mem : ConversationMemory)
    (session_context : Option SessionContext) : String :=
  match session_context with
  | none => mem.to_string
  | some sc =>
    match sc.conversation_history with
    | some h => h
    | none => mem.to_string

/-- The response dict returned by `generate_response`, restricted to the
fields read by callers and claims.  `tts_command` records the text/language
pair submitted to the synthesis collaborator. -/
structure Response where
  text : String
  language : String
  tts_command : Option (String × String)
  meta_error : Option String
  meta_fallback : Bool
  meta_retry_after : Option ℤ
deriving Repr, DecidableEq

/-- Result of one `generate_response` call: the returned dict, the mutated
conversation memory and rate limiter, and the conversation history embedded in
the prompt submitted to the external generation collaborator (`none` when the
call was rejected before a prompt was built). -/
structure GenOutcome where
  response : Response
  memory : ConversationMemory
  limiter : RateLimiter
  submitted_history : Option String

/-- Model of `BilingualAIResponder.generate_response` (ai_responder.py lines 70-201).
The 30-second `asyncio.wait_for` deadline turns any collaborator slower than
30 seconds into the `asyncio.TimeoutError` branch.  The user message is added
to memory before generation; on success the assistant message is added as
well; the error branches leave memory as it was after the user append. -/
def generate_response (rl : RateLimiter) (mem : ConversationMemory)
    (user_input detected_language : String)
    (session_context : Option SessionContext) (client_id : String)
    (collab : GenCollab) (now : ℚ) : GenOutcome :=
  let checked := rl.check_rate_limit client_id now
  let rl1 := checked.2
  if !checked.1 then
    { response :=
        { text := "Rate limit exceeded. Please try again in " ++
            toString (rl1.get_retry_after client_id) ++ " seconds.",
          language := detected_language, tts_command := none,
          meta_error := some "rate_limit_exceeded", meta_fallback := true,
          meta_retry_after := some (rl1.get_retry_after client_id) },
      memory := mem, limiter := rl1, submitted_history := none }
  else
    let lang := if detected_language = "auto" then detectUserLanguage user_input
      else detected_language
    let mem1 := mem.add_message "user" user_input now
    let submitted := buildContextHistory mem1 session_context
    let effective : Except GenError String :=
      if 30 < collab.duration then .error .timeout else collab.outcome
    match effective with
    | .ok raw =>
      let response_text := pyStrip raw
      let mem2 := mem1.add_message "assistant" response_text now
      let response_language :=
        if lang = "ja-JP" ∧ (3 : ℚ) / 10 < japaneseRatio response_text then "ja-JP"
        else determineResponseLanguage response_text lang
      { response :=
          { text := response_text, language := response_language,
            tts_command := some (response_text, response_language),
            meta_error := none, meta_fallback := false, meta_retry_after := none },
        memory := mem2, limiter := rl1, submitted_history := some submitted }
    | .error .timeout =>
      { response :=
          { text := "Response generation timed out. Please try again.",
            language := lang, tts_command := none,
            meta_error := some "timeout", meta_fallback := true,
            meta_retry_after := none },
        memory := mem1, limiter := rl1, submitted_history := some submitted }
    | .error .blocked =>
      { response :=
          { text := "I cannot respond to that message due to content filters.",
            language := lang, tts_command := none,
            meta_error := some "content_filtered", meta_fallback := true,
            meta_retry_after := none },
        memory := mem1, limiter := rl1, submitted_history := some submitted }
    | .error (.other msg) =>
      { response :=
          { text := getFallbackResponse lang, language := lang,
            tts_command := none, meta_error := some msg, meta_fallback := true,
            meta_retry_after := none },
        memory := mem1, limiter := rl1, submitted_history := some submitted }

/-! ## Streaming orchestrator (ai_responder.py, generate_response_stream) -/

/-- Behaviour of the streaming generation collaborator: it yields `frags` in
order and then either completes normally or raises. -/
inductive StreamOutcome where
  | fragments (frags : List String)
  | failsAfter (frags : List String) (errMsg : String)

/-- The streaming collaborator together with how long the initial
`generate_content(..., stream=True)` call takes (no deadline is applied to it
in the source). -/
structure StreamCollab where
  duration : ℚ
  outcome : StreamOutcome

/-- Events yielded by `generate_response_stream`, keyed by the `type` field of
the yielded dict. -/
inductive StreamEvent where
  | chunk (text language : String)
  | final (text language : String) (tts_command : Option (String × String))
      (conversation_turns : ℕ)
  | error (text language : String) (errKey : String) (retry_after : Option ℤ)
deriving Repr, DecidableEq

/-- Projection of an event to its `type` tag and `text` field. -/
def StreamEvent.tagText : StreamEvent → String × String
  | .chunk t _ => ("chunk", t)
  | .final t _ _ _ => ("final", t)
  | .error t _ _ _ => ("error", t)

/-- The `for chunk in response_stream` loop body: each fragment with truthy
(non-empty) `chunk.text` is appended to the accumulator and yielded as a
`chunk` event; empty fragments are skipped entirely.  Returns the yielded
events and the final accumulator. -/
def streamChunks (detected_language : String) :
    List String → String → List StreamEvent × String
  | [], acc => ([], acc)
  | c :: cs, acc =>
    if c = "" then streamChunks detected_language cs acc
    else
      let rest := streamChunks detected_language cs (acc ++ c)
      (.chunk c (determineResponseLanguage c detected_language) :: rest.1, rest.2)

/-- Result of one `generate_response_stream` call. -/
structure StreamGenOutcome where
  events : List StreamEvent
  memory : ConversationMemory
  limiter : RateLimiter
  submitted_history : Option String

/-- Model of `BilingualAIResponder.generate_response_stream` (ai_responder.py lines
336-478).  The rate-limit rejection yields a single error event.  Otherwise
the user message is appended to memory and the collaborator is driven with no
deadline (`asyncio.to_thread` is awaited bare, so `duration` never matters):
each non-empty fragment becomes a `chunk` event; on normal completion the
accumulated text is appended to memory and one `final` event is yielded; if
the stream raises, the chunks already yielded stand, memory keeps only the
user message, and one `error` event with the localized fallback text is
yielded. -/
def generate_response_stream (rl : RateLimiter) (mem : ConversationMemory)
    (user_input detected_language : String)
    (session_context : Option SessionContext) (client_id : String)
    (collab : StreamCollab) (now : ℚ) : StreamGenOutcome :=
  let checked := rl.check_rate_limit client_id now
  let rl1 := checked.2
  if !checked.1 then
    { events := [.error
        ("Rate limit exceeded. Please try again in " ++
          toString (rl1.get_retry_after client_id) ++ " seconds.")
        detected_language "rate_limit_exceeded"
        (some (rl1.get_retry_after client_id))],
      memory := mem, limiter := rl1, submitted_history := none }
  else
    let lang := if detected_language = "auto" then detectUserLanguage user_input
      else detected_language
    let mem1 := mem.add_message "user" user_input now
    let submitted := buildContextHistory mem1 session_context
    match collab.outcome with
    | .failsAfter frags errMsg =>
      let yielded := streamChunks lang frags ""
      { events := yielded.1 ++
          [.error (getFallbackResponse lang) lang errMsg none],
        memory := mem1, limiter := rl1, submitted_history := some submitted }
    | .fragments frags =>
      let yielded := streamChunks lang frags ""
      let full_response := yielded.2
      let mem2 := mem1.add_message "assistant" full_response now
      let response_language :=
        if lang = "ja-JP" ∧ (3 : ℚ) / 10 < japaneseRatio full_response then "ja-JP"
        else determineResponseLanguage full_response lang
      { events := yielded.1 ++
          [.final full_response response_language
            (some (full_response, response_language))
            (mem2.messages.length / 2)],
        memory := mem2, limiter := rl1, submitted_history := some submitted }

/-! ## Module-level sharing (api/websocket/handlers/web_speech_handler.py and
speech_handler.py)

Both handler modules construct exactly one `BilingualAIResponder` at import
time (`ai_responder = BilingualAIResponder()` at module scope), so one
conversation memory and the one module-global rate limiter serve every client
the module handles.  `ModuleState` is that shared state; the handlers receive
a `client_id` but the responder state they use does not depend on it. -/

structure ModuleState where
  memory : ConversationMemory
  limiter : RateLimiter

/-- The module state a `GenOutcome` leaves behind. -/
def GenOutcome.moduleState (o : GenOutcome) : ModuleState :=
  { memory := o.memory, limiter := o.limiter }

/-- Model of `SpeechHandler.handle_generate_response`: reads `context` from the client
message (default empty dict, so no `conversation_history` override unless the
client sends one), resolves the language via `context.get("language", "auto")`
and calls `generate_response` on the module-shared responder. -/
def handleGenerateResponse (st : ModuleState) (client_id text : String)
    (ctx : SessionContext) (collab : GenCollab) (now : ℚ) : GenOutcome :=
  let lang := match ctx.language with
    | some l => l
    | none => "auto"
  generate_response st.limiter st.memory text lang (some ctx) client_id collab now

/-- Model of `WebSpeechHandler.handle_language_change` resets the module-shared
responder memory (`ai_responder.reset_conversation()`), whatever client the
language-change message came from. -/
def handleLanguageChange (st : ModuleState) (_client_id _new_language : String) :
    ModuleState :=
  { st with memory := st.memory.clear }

/-! ## Session command handler
(api/websocket/handlers/control_handler.py, handle_session_command) -/

/-- Replies sent by `ControlHandler.handle_session_command`, keyed by the
`type` field. -/
inductive SessionReply where
  | session_started (client_id : String)
  | session_ended (client_id : String)
  | session_info (client_id : String)
  | error (message : String)
deriving Repr, DecidableEq

/-- The methods defined on `SessionManager`
(services/session_manager.py): attribute lookup on the instance succeeds for
exactly these names. -/
def sessionManagerMethods : List String :=
  ["create_session", "get_session", "update_context", "get_context",
   "set_preference", "reset_context", "end_session", "cleanup_expired_sessions"]

/-- Model of `ControlHandler.handle_session_command` (control_handler.py lines
137-192).  The `get_session_info` branch first calls
`speech_recognition_manager.get_session_stats` (which exists) and then
evaluates `session_manager.get_session_stats`; that attribute lookup is
modelled by membership in `sessionManagerMethods`, and its failure
(`AttributeError`) is caught by the surrounding except-clause, which sends an
`error` reply prefixed with `Session command error:`. -/
def handle_session_command (client_id command : String) : SessionReply :=
  if command = "start_session" then .session_started client_id
  else if command = "end_session" then .session_ended client_id
  else if command = "get_session_info" then
    if sessionManagerMethods.contains "get_session_stats" then
      .session_info client_id
    else
      .error "Session command error: SessionManager object has no attribute get_session_stats"
  else .error ("Unknown session command: " ++ command)

/-! ## Auxiliary notions used only in theorem statements -/

/-- Concatenation of a fragment sequence, in order. -/
def concatFragments : List String → String
  | [] => ""
  | s :: rest => s ++ concatFragments rest

/-- Does the pattern match at the head of the list? -/
def matchesAt : List Char → List Char → Bool
  | [], _ => true
  | _ :: _, [] => false
  | p :: ps, x :: xs => p = x && matchesAt ps xs

/-- Does the pattern occur anywhere in the list? -/
def occursIn (pat : List Char) : List Char → Bool
  | [] => matchesAt pat []
  | x :: xs => matchesAt pat (x :: xs) || occursIn pat xs

/-- Substring occurrence on strings. -/
def strOccurs (pat s : String) : Bool :=
  occursIn pat.toList s.toList

/-- The module-level limiter singleton of rate_limiter.py (lines 133-137):
`RateLimiter(requests_per_minute=30, requests_per_hour=500, burst_size=5)`,
taken to be created at instant 0. -/
def freshLimiter : RateLimiter :=
  RateLimiter.init 30 500 5 0

/-- The conversation memory of a freshly imported handler module
(`ConversationMemory(window_size=settings.MAX_CONVERSATION_TURNS)` with
`MAX_CONVERSATION_TURNS = 10`). -/
def emptyMemory : ConversationMemory :=
  ConversationMemory.init 10

/-- A limiter state in which one client `"c"` has the given stored bucket. -/
def limiterWithClient (b : TokenBucket) : RateLimiter :=
  { freshLimiter with
    client_buckets := fun k => if k = "c" then some b else none }

/-- A stored client bucket that is empty and refills at half a token per
second. -/
def slowEmptyBucket : TokenBucket :=
  { capacity := 30, refill_rate := 1/2, burst_size := 5,
    tokens := 0, last_update := 0 }

/-- A stored client bucket that is empty and refills at two tokens per
second. -/
def fastEmptyBucket : TokenBucket :=
  { capacity := 30, refill_rate := 2, burst_size := 5,
    tokens := 0, last_update := 0 }

/-- The fresh limiter with its global bucket drained to zero tokens. -/
def exhaustedGlobalLimiter : RateLimiter :=
  { freshLimiter with
    global_bucket := { freshLimiter.global_bucket with tokens := 0 } }


lemma TokenBucket.refill_tokens_le (b : TokenBucket) (now : ℚ) :
    (b.refill now).tokens ≤ b.capacity + b.burst_size :=
  min_le_right _ _

lemma TokenBucket.consume_fst_iff (b : TokenBucket) (n now : ℚ) :
    (b.consume n now).1 = true ↔ n ≤ (b.refill now).tokens := by
  simp only [TokenBucket.consume]
  split <;> simp_all

lemma TokenBucket.consume_snd_of_le (b : TokenBucket) (n now : ℚ)
    (h : n ≤ (b.refill now).tokens) :
    (b.consume n now).2 = { b.refill now with tokens := (b.refill now).tokens - n } := by
  simp only [TokenBucket.consume, if_pos h]

lemma TokenBucket.consume_snd_of_not_le (b : TokenBucket) (n now : ℚ)
    (h : ¬ n ≤ (b.refill now).tokens) :
    (b.consume n now).2 = b.refill now := by
  simp only [TokenBucket.consume, if_neg h]

lemma TokenBucket.refill_self_tokens (b : TokenBucket)
    (h : b.tokens ≤ b.capacity + b.burst_size) :
    (b.refill b.last_update).tokens = b.tokens := by
  simp only [TokenBucket.refill, sub_self, zero_mul, add_zero]
  exact min_eq_left h

lemma TokenBucket.refill_tokens_of_eq (b : TokenBucket) (now : ℚ)
    (hlu : b.last_update = now) (h : b.tokens ≤ b.capacity + b.burst_size) :
    (b.refill now).tokens = b.tokens := by
  subst hlu
  exact b.refill_self_tokens h

/-- C8: the token bucket invariant 0 ≤ tokens ≤ capacity + burst_size holds
at construction and is preserved by lazy refill, by consume, and by
add_tokens, given nonnegative refill rate, consume amount, and elapsed
time. -/
theorem C8_bucket_invariant :
    ∀ (capacity refill_rate burst_size now n : ℚ) (b : TokenBucket),
      (0 ≤ capacity → 0 ≤ burst_size →
        TBInv (TokenBucket.init capacity refill_rate burst_size now))
      ∧ (TBInv b → 0 ≤ b.refill_rate → b.last_update ≤ now → TBInv (b.refill now))
      ∧ (TBInv b → 0 ≤ b.refill_rate → b.last_update ≤ now → 0 ≤ n →
          TBInv (b.consume n now).2)
      ∧ (TBInv b → 0 ≤ n → TBInv (b.add_tokens n)) := by
  intro capacity refill_rate burst_size now n b
  have hrefill : TBInv b → 0 ≤ b.refill_rate → b.last_update ≤ now →
      TBInv (b.refill now) := by
    rintro ⟨h0, h1⟩ hr ht
    constructor
    · exact le_min (add_nonneg h0 (mul_nonneg (sub_nonneg.mpr ht) hr)) (h0.trans h1)
    · exact min_le_right _ _
  refine ⟨?_, hrefill, ?_, ?_⟩
  · intro h0 h1
    exact ⟨h0, le_add_of_nonneg_right h1⟩
  · intro hinv hr ht hn
    have hri := hrefill hinv hr ht
    by_cases h : n ≤ (b.refill now).tokens
    · rw [TokenBucket.consume_snd_of_le b n now h]
      refine ⟨sub_nonneg.mpr h, ?_⟩
      exact le_trans (sub_le_self _ hn) hri.2
    · rw [TokenBucket.consume_snd_of_not_le b n now h]
      exact hri
  · rintro ⟨h0, h1⟩ hn
    constructor
    · exact le_min (add_nonneg h0 hn) (h0.trans h1)
    · exact min_le_right _ _

/-- Witness for C8 at a concrete bucket. -/
theorem C8_bucket_invariant_witness :
    TBInv (TokenBucket.init 30 2 5 0)
    ∧ TBInv ((TokenBucket.init 30 2 5 0).consume 1 7).2 := by
  have hinit : TBInv (TokenBucket.init 30 2 5 0) :=
    (C8_bucket_invariant 30 2 5 0 1 (TokenBucket.init 30 2 5 0)).1
      (by norm_num) (by norm_num)
  refine ⟨hinit, ?_⟩
  exact (C8_bucket_invariant 30 2 5 7 1 (TokenBucket.init 30 2 5 0)).2.2.1
    hinit (by norm_num [TokenBucket.init]) (by norm_num [TokenBucket.init]) (by norm_num)


lemma TokenBucket.consume_snd_capacity (b : TokenBucket) (n now : ℚ) :
    ((b.consume n now).2).capacity = b.capacity := by
  simp only [TokenBucket.consume]
  split <;> rfl

lemma TokenBucket.consume_snd_burst (b : TokenBucket) (n now : ℚ) :
    ((b.consume n now).2).burst_size = b.burst_size := by
  simp only [TokenBucket.consume]
  split <;> rfl

lemma TokenBucket.consume_snd_last_update (b : TokenBucket) (n now : ℚ) :
    ((b.consume n now).2).last_update = now := by
  simp only [TokenBucket.consume]
  split <;> rfl

lemma TokenBucket.consume_snd_tokens_of_le (b : TokenBucket) (n now : ℚ)
    (h : n ≤ (b.refill now).tokens) :
    ((b.consume n now).2).tokens = (b.refill now).tokens - n := by
  rw [TokenBucket.consume_snd_of_le b n now h]

lemma TokenBucket.add_tokens_tokens (b : TokenBucket) (n : ℚ) :
    (b.add_tokens n).tokens = min (b.tokens + n) (b.capacity + b.burst_size) := rfl

lemma TokenBucket.add_tokens_capacity (b : TokenBucket) (n : ℚ) :
    (b.add_tokens n).capacity = b.capacity := rfl

lemma TokenBucket.add_tokens_burst (b : TokenBucket) (n : ℚ) :
    (b.add_tokens n).burst_size = b.burst_size := rfl

lemma TokenBucket.add_tokens_last_update (b : TokenBucket) (n : ℚ) :
    (b.add_tokens n).last_update = b.last_update := rfl

/-- C2: when the per-client consume succeeds and the global consume fails,
`check_rate_limit` returns False, stores the client bucket with exactly one
token added back (the refund is exact: the refunded bucket holds precisely the
post-refill token count it had before the consume, the `min` clamp never
biting), and an immediately subsequent consume on that bucket at the same
instant succeeds. -/
theorem C2_refund_exact :
    ∀ (rl : RateLimiter) (client_id : String) (now : ℚ) (cb : TokenBucket),
      cb = rl.bucketFor client_id now →
      (cb.consume 1 now).1 = true →
      (rl.global_bucket.consume 1 now).1 = false →
      (rl.check_rate_limit client_id now).1 = false
      ∧ (rl.check_rate_limit client_id now).2.client_buckets client_id
          = some ((cb.consume 1 now).2.add_tokens 1)
      ∧ ((cb.consume 1 now).2.add_tokens 1).tokens = (cb.consume 1 now).2.tokens + 1
      ∧ ((cb.consume 1 now).2.add_tokens 1).tokens = (cb.refill now).tokens
      ∧ (((cb.consume 1 now).2.add_tokens 1).consume 1 now).1 = true := by
  intro rl client_id now cb hcb h1 h2
  have hle : 1 ≤ (cb.refill now).tokens := (TokenBucket.consume_fst_iff cb 1 now).mp h1
  have hcap : (cb.refill now).tokens ≤ cb.capacity + cb.burst_size :=
    TokenBucket.refill_tokens_le cb now
  have hcheck : rl.check_rate_limit client_id now
      = (false, { (rl.setBucket client_id ((cb.consume 1 now).2.add_tokens 1)) with
          global_bucket := (rl.global_bucket.consume 1 now).2 }) := by
    simp only [RateLimiter.check_rate_limit, ← hcb, h1, h2, Bool.not_true,
      Bool.not_false, Bool.false_eq_true, if_false, if_true]
  have htok : ((cb.consume 1 now).2.add_tokens 1).tokens = (cb.refill now).tokens := by
    rw [TokenBucket.add_tokens_tokens, TokenBucket.consume_snd_tokens_of_le cb 1 now hle,
      TokenBucket.consume_snd_capacity, TokenBucket.consume_snd_burst, sub_add_cancel]
    exact min_eq_left hcap
  have hxcap : ((cb.consume 1 now).2.add_tokens 1).capacity = cb.capacity := by
    rw [TokenBucket.add_tokens_capacity, TokenBucket.consume_snd_capacity]
  have hxburst : ((cb.consume 1 now).2.add_tokens 1).burst_size = cb.burst_size := by
    rw [TokenBucket.add_tokens_burst, TokenBucket.consume_snd_burst]
  have hxlu : ((cb.consume 1 now).2.add_tokens 1).last_update = now := by
    rw [TokenBucket.add_tokens_last_update, TokenBucket.consume_snd_last_update]
  refine ⟨by rw [hcheck], ?_, ?_, htok, ?_⟩
  · rw [hcheck]
    simp [RateLimiter.setBucket]
  · rw [htok, TokenBucket.consume_snd_tokens_of_le cb 1 now hle, sub_add_cancel]
  · rw [TokenBucket.consume_fst_iff,
      TokenBucket.refill_tokens_of_eq _ _ hxlu (by rw [htok, hxcap, hxburst]; exact hcap),
      htok]
    exact hle

/-- Witness for C2: a fresh client against an exhausted global bucket. -/
theorem C2_refund_exact_witness :
    (exhaustedGlobalLimiter.check_rate_limit "c" 0).1 = false := by
  have h := C2_refund_exact exhaustedGlobalLimiter "c" 0 _ rfl
    (by norm_num [RateLimiter.bucketFor, RateLimiter.freshClientBucket,
      TokenBucket.consume, TokenBucket.refill, TokenBucket.init, freshLimiter,
      RateLimiter.init, exhaustedGlobalLimiter, min_def])
    (by norm_num [TokenBucket.consume, TokenBucket.refill, TokenBucket.init,
      freshLimiter, RateLimiter.init, exhaustedGlobalLimiter, min_def])
  exact h.1

/-- C10: when the lazily refilled per-client bucket holds fewer than one token
while the refilled global bucket holds at least one, `check_rate_limit`
returns False and the final global bucket still lost one token (no refund on
this path). -/
theorem C10_global_not_refunded :
    ∀ (rl : RateLimiter) (client_id : String) (now : ℚ) (cb : TokenBucket),
      cb = rl.bucketFor client_id now →
      (cb.refill now).tokens < 1 →
      1 ≤ (rl.global_bucket.refill now).tokens →
      (rl.check_rate_limit client_id now).1 = false
      ∧ (rl.check_rate_limit client_id now).2.global_bucket.tokens
          = (rl.global_bucket.refill now).tokens - 1 := by
  intro rl client_id now cb hcb hclient hglobal
  have h1 : (cb.consume 1 now).1 = false := by
    rw [← Bool.not_eq_true, TokenBucket.consume_fst_iff]
    exact not_le.mpr hclient
  have hcheck : rl.check_rate_limit client_id now
      = (false, { (rl.setBucket client_id (cb.consume 1 now).2) with
          global_bucket := (rl.global_bucket.consume 1 now).2 }) := by
    simp only [RateLimiter.check_rate_limit, ← hcb, h1, Bool.not_false, if_true]
  refine ⟨by rw [hcheck], ?_⟩
  rw [hcheck]
  exact TokenBucket.consume_snd_tokens_of_le rl.global_bucket 1 now hglobal

/-- Witness for C10: an empty client bucket against a full global bucket. -/
theorem C10_global_not_refunded_witness :
    ((limiterWithClient fastEmptyBucket).check_rate_limit "c" 0).1 = false := by
  have h := C10_global_not_refunded (limiterWithClient fastEmptyBucket)
    "c" 0 _ rfl
    (by norm_num [RateLimiter.bucketFor, TokenBucket.refill, freshLimiter,
      RateLimiter.init, limiterWithClient, fastEmptyBucket, min_def])
    (by norm_num [TokenBucket.refill, TokenBucket.init, freshLimiter,
      RateLimiter.init, limiterWithClient, min_def])
  exact h.1

/-- C7 counterexample: a client bucket with 0 tokens and refill rate 1/2
token per second.  The claimed value is the ceiling of
(1 - tokens)/refill_rate = 2 seconds, but `get_retry_after` returns
`int(2) + 1 = 3`. -/
theorem C7_retry_after_counterexample :
    (limiterWithClient slowEmptyBucket).get_retry_after "c" = 3
    ∧ ⌈((1 : ℚ) - slowEmptyBucket.tokens) / slowEmptyBucket.refill_rate⌉ = 2
    ∧ (3 : ℤ) ≠ 2 := by
  refine ⟨?_, ?_, by norm_num⟩
  · norm_num [RateLimiter.get_retry_after, TokenBucket.get_retry_after, pyTrunc,
      limiterWithClient, slowEmptyBucket]
  · norm_num [slowEmptyBucket]

/-- C7 amended: for a stored client bucket, `get_retry_after` returns 0 when
the stored (not lazily refilled) token count is at least 1 and otherwise the
floor of (1 - tokens)/refill_rate plus one, and it is 0 exactly when a
per-client consume at the bucket timestamp (zero elapsed time; the global
bucket is not consulted) would succeed. -/
theorem C7_retry_after_amended :
    ∀ (rl : RateLimiter) (client_id : String) (b : TokenBucket),
      rl.client_buckets client_id = some b →
      0 < b.refill_rate →
      b.tokens ≤ b.capacity + b.burst_size →
      (rl.get_retry_after client_id
        = if 1 ≤ b.tokens then 0 else ⌊(1 - b.tokens) / b.refill_rate⌋ + 1)
      ∧ (rl.get_retry_after client_id = 0 ↔ (b.consume 1 b.last_update).1 = true) := by
  intro rl client_id b hb hr hcap
  have hunfold : rl.get_retry_after client_id = b.get_retry_after := by
    simp [RateLimiter.get_retry_after, hb]
  have hcons : (b.consume 1 b.last_update).1 = true ↔ 1 ≤ b.tokens := by
    rw [TokenBucket.consume_fst_iff, b.refill_self_tokens hcap]
  by_cases h : 1 ≤ b.tokens
  · have hzero : b.get_retry_after = 0 := by
      simp [TokenBucket.get_retry_after, h]
    refine ⟨by rw [hunfold, hzero, if_pos h], ?_⟩
    rw [hunfold, hzero]
    simp [hcons, h]
  · have hq : 0 < (1 - b.tokens) / b.refill_rate :=
      div_pos (by linarith [not_le.mp h]) hr
    have hval : b.get_retry_after = ⌊(1 - b.tokens) / b.refill_rate⌋ + 1 := by
      simp only [TokenBucket.get_retry_after, if_neg h, pyTrunc,
        if_neg (not_lt.mpr hq.le)]
    have hfl : 0 ≤ ⌊(1 - b.tokens) / b.refill_rate⌋ := Int.floor_nonneg.mpr hq.le
    refine ⟨by rw [hunfold, hval, if_neg h], ?_⟩
    rw [hunfold, hval]
    constructor
    · intro hz
      omega
    · intro hc
      exact absurd (hcons.mp hc) h

/-- Witness for the amended C7 at a concrete stored bucket. -/
theorem C7_retry_after_amended_witness :
    (limiterWithClient fastEmptyBucket).get_retry_after "c"
      = if (1 : ℚ) ≤ fastEmptyBucket.tokens then 0
        else ⌊((1 : ℚ) - fastEmptyBucket.tokens) / fastEmptyBucket.refill_rate⌋ + 1 := by
  have h := C7_retry_after_amended (limiterWithClient fastEmptyBucket)
    "c" fastEmptyBucket
    (by norm_num [limiterWithClient])
    (by norm_num [fastEmptyBucket])
    (by norm_num [fastEmptyBucket])
  exact h.1

/-- C3 counterexample: a session created at time 0 whose context is updated
at t = 3540 (59 min) is nevertheless gone at t = 3660 (61 min): the expiry
test reads `created_at`, so activity does not extend the lifetime. -/
theorem C3_ttl_counterexample :
    (((SessionManager.init.setSession "s" (freshSession 0)).update_context
        "s" "hi" "yo" 3540).1 = true)
    ∧ ((((SessionManager.init.setSession "s" (freshSession 0)).update_context
        "s" "hi" "yo" 3540).2).get_session "s" 3660).1 = none := by
  have hget : (SessionManager.init.setSession "s" (freshSession 0)).get_session
      "s" 3540 = (some (freshSession 0), SessionManager.init.setSession "s" (freshSession 0)) := by
    simp only [SessionManager.get_session, SessionManager.setSession,
      SessionManager.init, freshSession, if_pos rfl]
    norm_num
  have hupd : (SessionManager.init.setSession "s" (freshSession 0)).update_context
      "s" "hi" "yo" 3540
      = (true, (SessionManager.init.setSession "s" (freshSession 0)).setSession "s"
          { created_at := 0, updated_at := 3540,
            conversation_history := "User: hi\nAI: yo",
            language_preference := "auto", context := fun _ => none,
            turn_count := 1 }) := by
    simp only [SessionManager.update_context, hget]
    rfl
  refine ⟨by rw [hupd], ?_⟩
  rw [hupd]
  simp only [SessionManager.get_session, SessionManager.setSession,
    SessionManager.init, if_pos rfl]
  norm_num

/-- C3 amended: `get_session` returns the stored session exactly when at most
`session_ttl` seconds have elapsed since the session was *created*; past that
it deletes the entry and returns None; and `update_context` never changes
`created_at`, so activity does not extend the lifetime. -/
theorem C3_ttl_from_creation :
    ∀ (m : SessionManager) (session_id : String) (s : SessionData) (now : ℚ),
      m.sessions session_id = some s →
      (now - s.created_at ≤ m.session_ttl →
        m.get_session session_id now = (some s, m))
      ∧ (m.session_ttl < now - s.created_at →
        (m.get_session session_id now).1 = none
        ∧ ((m.get_session session_id now).2).sessions session_id = none)
      ∧ (∀ (user_input ai_response : String) (s2 : SessionData),
          ((m.update_context session_id user_input ai_response now).2).sessions
              session_id = some s2 →
          s2.created_at = s.created_at) := by
  intro m session_id s now hs
  refine ⟨?_, ?_, ?_⟩
  · intro hle
    simp only [SessionManager.get_session, hs, if_neg (not_lt.mpr hle)]
  · intro hlt
    constructor
    · simp [SessionManager.get_session, hs, if_pos hlt]
    · simp [SessionManager.get_session, hs, if_pos hlt, SessionManager.delSession]
  · intro user_input ai_response s2 h2
    by_cases hexp : m.session_ttl < now - s.created_at
    · simp only [SessionManager.update_context, SessionManager.get_session, hs,
        if_pos hexp, SessionManager.delSession] at h2
      simp at h2
    · simp only [SessionManager.update_context, SessionManager.get_session, hs,
        if_neg hexp, SessionManager.setSession] at h2
      simp at h2
      rw [← h2]

/-- Witness for the amended C3: an untouched session fetched after 30 minutes. -/
theorem C3_ttl_from_creation_witness :
    (SessionManager.init.setSession "s" (freshSession 0)).get_session "s" 1800
      = (some (freshSession 0), SessionManager.init.setSession "s" (freshSession 0)) := by
  have h := C3_ttl_from_creation
    (SessionManager.init.setSession "s" (freshSession 0)) "s" (freshSession 0) 1800
    (by simp [SessionManager.setSession, SessionManager.init])
  exact h.1 (by norm_num [freshSession, SessionManager.setSession, SessionManager.init])

lemma streamChunks_fst_map (lang : String) :
    ∀ (frags : List String) (acc : String),
      (streamChunks lang frags acc).1.map StreamEvent.tagText
        = (frags.filter (fun c => c ≠ "")).map (fun c => ("chunk", c))
  | [], acc => by simp [streamChunks]
  | c :: cs, acc => by
    by_cases hc : c = ""
    · simp [streamChunks, hc, streamChunks_fst_map lang cs acc]
    · simp [streamChunks, hc, streamChunks_fst_map lang cs (acc ++ c),
        StreamEvent.tagText]

lemma streamChunks_snd (lang : String) :
    ∀ (frags : List String) (acc : String),
      (streamChunks lang frags acc).2 = acc ++ concatFragments frags
  | [], acc => by simp [streamChunks, concatFragments]
  | c :: cs, acc => by
    by_cases hc : c = ""
    · subst hc
      rw [concatFragments]
      have h0 : ("" : String) ++ concatFragments cs = concatFragments cs := rfl
      rw [h0]
      simp [streamChunks, streamChunks_snd lang cs acc]
    · rw [concatFragments]
      simp only [streamChunks, if_neg hc, streamChunks_snd lang cs (acc ++ c),
        String.append_assoc]

/-- C1: past admission, the streaming orchestrator yields one `chunk` event
per non-empty fragment, carrying that fragment, in production order, followed
by exactly one `final` event whose text is the concatenation of all fragments;
in particular the fragments A, B, C give three chunks and a final ABC. -/
theorem C1_stream_chunk_order :
    (∀ (rl : RateLimiter) (mem : ConversationMemory)
        (user_input detected_language : String) (sc : Option SessionContext)
        (client_id : String) (frags : List String) (d now : ℚ),
      (rl.check_rate_limit client_id now).1 = true →
      ((generate_response_stream rl mem user_input detected_language sc client_id
          { duration := d, outcome := .fragments frags } now).events.map
        StreamEvent.tagText)
        = (frags.filter (fun c => c ≠ "")).map (fun c => ("chunk", c))
            ++ [("final", concatFragments frags)])
    ∧ ((generate_response_stream freshLimiter emptyMemory "hello" "en-US" none
          "clientA" { duration := 0, outcome := .fragments ["A", "B", "C"] }
          0).events.map StreamEvent.tagText)
        = [("chunk", "A"), ("chunk", "B"), ("chunk", "C"), ("final", "ABC")] := by
  have hgen : ∀ (rl : RateLimiter) (mem : ConversationMemory)
      (user_input detected_language : String) (sc : Option SessionContext)
      (client_id : String) (frags : List String) (d now : ℚ),
      (rl.check_rate_limit client_id now).1 = true →
      ((generate_response_stream rl mem user_input detected_language sc client_id
          { duration := d, outcome := .fragments frags } now).events.map
        StreamEvent.tagText)
        = (frags.filter (fun c => c ≠ "")).map (fun c => ("chunk", c))
            ++ [("final", concatFragments frags)] := by
    intro rl mem user_input detected_language sc client_id frags d now hok
    simp only [generate_response_stream, hok, Bool.not_true, Bool.false_eq_true,
      if_false, List.map_append, streamChunks_fst_map, streamChunks_snd,
      List.map_cons, List.map_nil, StreamEvent.tagText]
    rfl
  refine ⟨hgen, ?_⟩
  rw [hgen freshLimiter emptyMemory "hello" "en-US" none "clientA"
    ["A", "B", "C"] 0 0 ?hadm]
  · rfl
  · norm_num [RateLimiter.check_rate_limit, RateLimiter.bucketFor,
      RateLimiter.freshClientBucket, TokenBucket.consume, TokenBucket.refill,
      TokenBucket.init, freshLimiter, RateLimiter.init, min_def]

/-- Witness for C1 on the fragments x, empty, y. -/
theorem C1_stream_chunk_order_witness :
    ((generate_response_stream freshLimiter emptyMemory "hi" "en-US" none
        "clientB" { duration := 0, outcome := .fragments ["x", "", "y"] }
        0).events.map StreamEvent.tagText)
      = [("chunk", "x"), ("chunk", "y"), ("final", "xy")] := by
  rw [C1_stream_chunk_order.1 freshLimiter emptyMemory "hi" "en-US" none
    "clientB" ["x", "", "y"] 0 0 ?hadm]
  · rfl
  · norm_num [RateLimiter.check_rate_limit, RateLimiter.bucketFor,
      RateLimiter.freshClientBucket, TokenBucket.consume, TokenBucket.refill,
      TokenBucket.init, freshLimiter, RateLimiter.init, min_def]

/-- C4 counterexample: in the streaming path a collaborator that takes 1000
seconds (far beyond the claimed 30-second deadline) still streams its chunk
and completes with a `final` event; no `error` event of kind `timeout` (nor
any failure) is produced. -/
theorem C4_stream_no_deadline_counterexample :
    ((generate_response_stream freshLimiter emptyMemory "hello" "en-US" none
        "clientA" { duration := 1000, outcome := .fragments ["A"] } 0).events.map
      StreamEvent.tagText) = [("chunk", "A"), ("final", "A")]
    ∧ (30 : ℚ) < 1000 := by
  constructor
  · have hadm : (freshLimiter.check_rate_limit "clientA" 0).1 = true := by
      norm_num [RateLimiter.check_rate_limit, RateLimiter.bucketFor,
        RateLimiter.freshClientBucket, TokenBucket.consume, TokenBucket.refill,
        TokenBucket.init, freshLimiter, RateLimiter.init, min_def]
    simp only [generate_response_stream, hadm, Bool.not_true, Bool.false_eq_true,
      if_false, List.map_append, streamChunks_fst_map, streamChunks_snd,
      List.map_cons, List.map_nil, StreamEvent.tagText]
    rfl
  · norm_num

/-- C4 amended: only the non-streaming path enforces the 30-second deadline
(collaborators slower than 30 seconds produce the failed outcome with error
kind timeout and the timeout fallback text); the streaming path applies no
deadline at all: its result is entirely independent of how long the
collaborator takes. -/
theorem C4_timeout_amended :
    (∀ (rl : RateLimiter) (mem : ConversationMemory)
        (user_input detected_language : String) (sc : Option SessionContext)
        (client_id : String) (collab : GenCollab) (now : ℚ),
      (rl.check_rate_limit client_id now).1 = true →
      30 < collab.duration →
      (generate_response rl mem user_input detected_language sc client_id collab
          now).response.meta_error = some "timeout"
      ∧ (generate_response rl mem user_input detected_language sc client_id collab
          now).response.meta_fallback = true
      ∧ (generate_response rl mem user_input detected_language sc client_id collab
          now).response.text
          = "Response generation timed out. Please try again.")
    ∧ (∀ (rl : RateLimiter) (mem : ConversationMemory)
        (user_input detected_language : String) (sc : Option SessionContext)
        (client_id : String) (outcome : StreamOutcome) (d dp now : ℚ),
      generate_response_stream rl mem user_input detected_language sc client_id
          { duration := d, outcome := outcome } now
        = generate_response_stream rl mem user_input detected_language sc client_id
          { duration := dp, outcome := outcome } now) := by
  constructor
  · intro rl mem user_input detected_language sc client_id collab now hok hd
    simp [generate_response, hok, if_pos hd]
  · intro rl mem user_input detected_language sc client_id outcome d dp now
    rfl

/-- Witness for the amended C4: a 31-second collaborator on the non-streaming path. -/
theorem C4_timeout_amended_witness :
    (generate_response freshLimiter emptyMemory "hi" "en-US" none "clientA"
      { duration := 31, outcome := .ok "late" } 0).response.meta_error
      = some "timeout" := by
  have h := C4_timeout_amended.1 freshLimiter emptyMemory "hi" "en-US" none
    "clientA" { duration := 31, outcome := .ok "late" } 0
    (by norm_num [RateLimiter.check_rate_limit, RateLimiter.bucketFor,
      RateLimiter.freshClientBucket, TokenBucket.consume, TokenBucket.refill,
      TokenBucket.init, freshLimiter, RateLimiter.init, min_def])
    (by norm_num)
  exact h.1

/-- C5 counterexample: starting from an empty conversation memory, a request
whose collaborator raises leaves the memory holding the user message — not
the pre-request (empty) state the claim requires. -/
theorem C5_memory_counterexample :
    (generate_response freshLimiter emptyMemory "hi there" "en-US" none
      "clientA" { duration := 0, outcome := .error (.other "boom") } 0).memory.messages
      = [{ role := "user", content := "hi there", timestamp := 0 }]
    ∧ (generate_response freshLimiter emptyMemory "hi there" "en-US" none
      "clientA" { duration := 0, outcome := .error (.other "boom") } 0).response.meta_error
      = some "boom"
    ∧ emptyMemory.messages = [] := by
  have hadm : (freshLimiter.check_rate_limit "clientA" 0).1 = true := by
    norm_num [RateLimiter.check_rate_limit, RateLimiter.bucketFor,
      RateLimiter.freshClientBucket, TokenBucket.consume, TokenBucket.refill,
      TokenBucket.init, freshLimiter, RateLimiter.init, min_def]
  have h30 : ¬ (30 : ℚ) < 0 := by norm_num
  refine ⟨?_, ?_, rfl⟩
  · simp only [generate_response, hadm, Bool.not_true, Bool.false_eq_true,
      if_false, if_neg h30]
    rfl
  · simp only [generate_response, hadm, Bool.not_true, Bool.false_eq_true,
      if_false, if_neg h30]

/-- C5 amended: a failing generation past admission produces an error-marked
fallback result (streaming: a terminal `error` event) and never commits the
assistant turn, but the user message has already been appended, so the memory
ends as its pre-request state extended by exactly the user message. -/
theorem C5_error_turn_not_committed :
    (∀ (rl : RateLimiter) (mem : ConversationMemory)
        (user_input detected_language : String) (sc : Option SessionContext)
        (client_id : String) (e : GenError) (collab : GenCollab) (now : ℚ),
      (rl.check_rate_limit client_id now).1 = true →
      collab.duration ≤ 30 →
      collab.outcome = .error e →
      ((generate_response rl mem user_input detected_language sc client_id collab
          now).response.meta_error).isSome = true
      ∧ (generate_response rl mem user_input detected_language sc client_id collab
          now).response.meta_fallback = true
      ∧ (generate_response rl mem user_input detected_language sc client_id collab
          now).memory = mem.add_message "user" user_input now)
    ∧ (∀ (rl : RateLimiter) (mem : ConversationMemory)
        (user_input detected_language : String) (sc : Option SessionContext)
        (client_id : String) (collab : GenCollab) (now : ℚ),
      (rl.check_rate_limit client_id now).1 = true →
      30 < collab.duration →
      (generate_response rl mem user_input detected_language sc client_id collab
          now).memory = mem.add_message "user" user_input now)
    ∧ (∀ (rl : RateLimiter) (mem : ConversationMemory)
        (user_input detected_language : String) (sc : Option SessionContext)
        (client_id : String) (frags : List String) (errMsg : String) (d now : ℚ),
      (rl.check_rate_limit client_id now).1 = true →
      ((generate_response_stream rl mem user_input detected_language sc client_id
          { duration := d, outcome := .failsAfter frags errMsg } now).events.getLast?).map
        (fun ev => ev.tagText.1) = some "error"
      ∧ (generate_response_stream rl mem user_input detected_language sc client_id
          { duration := d, outcome := .failsAfter frags errMsg } now).memory
          = mem.add_message "user" user_input now) := by
  refine ⟨?_, ?_, ?_⟩
  · intro rl mem user_input detected_language sc client_id e collab now hok hd hout
    rcases e with _ | _ | msg <;>
      simp [generate_response, hok, if_neg (not_lt.mpr hd), hout]
  · intro rl mem user_input detected_language sc client_id collab now hok hd
    simp only [generate_response, hok, Bool.not_true, Bool.false_eq_true,
      if_false, if_pos hd]
  · intro rl mem user_input detected_language sc client_id frags errMsg d now hok
    simp only [generate_response_stream, hok, Bool.not_true, Bool.false_eq_true,
      if_false]
    refine ⟨?_, trivial⟩
    rw [List.getLast?_concat]
    rfl

/-- Witness for the amended C5: a safety-blocked generation keeps only the user message. -/
theorem C5_error_turn_not_committed_witness :
    (generate_response freshLimiter emptyMemory "yo" "en-US" none "clientA"
      { duration := 0, outcome := .error .blocked } 0).memory
      = emptyMemory.add_message "user" "yo" 0 := by
  have h := C5_error_turn_not_committed.1 freshLimiter emptyMemory "yo" "en-US"
    none "clientA" .blocked { duration := 0, outcome := .error .blocked } 0
    (by norm_num [RateLimiter.check_rate_limit, RateLimiter.bucketFor,
      RateLimiter.freshClientBucket, TokenBucket.consume, TokenBucket.refill,
      TokenBucket.init, freshLimiter, RateLimiter.init, min_def])
    (by norm_num) rfl
  exact h.2.2

/-- C6 counterexample: the handler module serves every client with the same
module-level responder, so after client A speaks, the conversation history
submitted to the collaborator for client B literally contains the turn of A. -/
theorem C6_memory_isolation_counterexample :
    ("clientA" : String) ≠ "clientB"
    ∧ (handleGenerateResponse
        ((handleGenerateResponse { memory := emptyMemory, limiter := freshLimiter }
          "clientA" "hello from A" {}
          { duration := 0, outcome := .ok "reply to A" } 0).moduleState)
        "clientB" "hi from B" {}
        { duration := 0, outcome := .ok "reply to B" } 0).submitted_history
      = some "user: hello from A\nassistant: reply to A\nuser: hi from B"
    ∧ strOccurs "hello from A"
        "user: hello from A\nassistant: reply to A\nuser: hi from B" = true := by
  have hadm1 : (freshLimiter.check_rate_limit "clientA" 0).1 = true := by
    norm_num [RateLimiter.check_rate_limit, RateLimiter.bucketFor,
      RateLimiter.freshClientBucket, TokenBucket.consume, TokenBucket.refill,
      TokenBucket.init, freshLimiter, RateLimiter.init, min_def]
  have h30 : ¬ (30 : ℚ) < 0 := by norm_num
  have hout1 : (handleGenerateResponse
      { memory := emptyMemory, limiter := freshLimiter } "clientA" "hello from A"
      {} { duration := 0, outcome := .ok "reply to A" } 0).moduleState
      = { memory :=
            { window_size := 10,
              messages :=
                [{ role := "user", content := "hello from A", timestamp := 0 },
                 { role := "assistant", content := "reply to A", timestamp := 0 }] },
          limiter := (freshLimiter.check_rate_limit "clientA" 0).2 } := by
    simp only [handleGenerateResponse, GenOutcome.moduleState, generate_response,
      hadm1, Bool.not_true, Bool.false_eq_true, if_false, if_neg h30]
    rfl
  have hBA : ¬ (("clientB" : String) = "clientA") := by decide
  have hadm2 : (((freshLimiter.check_rate_limit "clientA" 0).2).check_rate_limit
      "clientB" 0).1 = true := by
    norm_num [RateLimiter.check_rate_limit, RateLimiter.bucketFor,
      RateLimiter.freshClientBucket, RateLimiter.setBucket, TokenBucket.consume,
      TokenBucket.refill, TokenBucket.init, TokenBucket.add_tokens, freshLimiter,
      RateLimiter.init, min_def, hBA]
  refine ⟨by decide, ?_, by decide⟩
  rw [hout1]
  simp only [handleGenerateResponse, generate_response, hadm2, Bool.not_true,
    Bool.false_eq_true, if_false, if_neg h30]
  rfl

/-- C6 amended: the responder state is module-global, not per-client: serving
any admitted client appends the turn of that client to the one shared conversation
memory; whenever the supplied session context carries no conversation_history
override, the history assembled for the next request — whichever client sends
it — renders exactly that shared memory; and a language change from any one
client clears the shared memory for everyone. -/
theorem C6_shared_memory_amended :
    (∀ (st : ModuleState) (client_id text : String) (ctx : SessionContext)
        (r : String) (collab : GenCollab) (now : ℚ),
      (st.limiter.check_rate_limit client_id now).1 = true →
      collab.duration ≤ 30 →
      collab.outcome = .ok r →
      (handleGenerateResponse st client_id text ctx collab now).memory
        = (st.memory.add_message "user" text now).add_message "assistant"
            (pyStrip r) now)
    ∧ (∀ (mem : ConversationMemory) (sc : SessionContext),
        sc.conversation_history = none →
        buildContextHistory mem (some sc) = mem.to_string)
    ∧ (∀ (st : ModuleState) (client_id new_language : String),
        (handleLanguageChange st client_id new_language).memory.messages = []) := by
  refine ⟨?_, ?_, ?_⟩
  · intro st client_id text ctx r collab now hok hd hout
    simp [handleGenerateResponse, generate_response, hok,
      if_neg (not_lt.mpr hd), hout]
  · intro mem sc hsc
    simp [buildContextHistory, hsc]
  · intro st client_id new_language
    rfl

/-- Witness for the amended C6 at a concrete admitted request. -/
theorem C6_shared_memory_amended_witness :
    (handleGenerateResponse { memory := emptyMemory, limiter := freshLimiter }
      "clientA" "ping" {} { duration := 0, outcome := .ok "pong" } 0).memory
      = (emptyMemory.add_message "user" "ping" 0).add_message "assistant"
          (pyStrip "pong") 0 := by
  exact C6_shared_memory_amended.1
    { memory := emptyMemory, limiter := freshLimiter } "clientA" "ping" {}
    "pong" { duration := 0, outcome := .ok "pong" } 0
    (by norm_num [RateLimiter.check_rate_limit, RateLimiter.bucketFor,
      RateLimiter.freshClientBucket, TokenBucket.consume, TokenBucket.refill,
      TokenBucket.init, freshLimiter, RateLimiter.init, min_def])
    (by norm_num) rfl

/-- C9: the `get_session_info` branch of `handle_session_command` evaluates
`session_manager.get_session_stats`, an attribute `SessionManager` does not
define; the resulting AttributeError is caught and answered with an `error`
reply, never with the `session_info` reply the claim requires. -/
theorem C9_get_session_info_attribute_error :
    ∀ client_id : String,
      handle_session_command client_id "get_session_info"
        = .error "Session command error: SessionManager object has no attribute get_session_stats" := by
  intro client_id
  rfl

end AIVlingual
